import Mathlib

/-!
# yancy: the RAW decode session (`src/raw_processor.cc`)

A shallow embedding of the class `RawProcessor` and of the part of the LibRaw
engine it drives.  The engine is a black box: its four stage calls are taken as
arbitrary functions on an abstract engine state.  Exceptions become an explicit
error value returned next to the state the object is left in.
-/

namespace Yancy

/-! ## Engine-side types -/

/-- Modelled from the spec: the status value `LIBRAW_SUCCESS` of the LibRaw
headers, which are not part of the sources; the engine reports "success" with
status zero and a failure with any other status. -/
def LIBRAW_SUCCESS : Int := 0

/-- Modelled from the spec: the image kind "bitmap", the constant
`LIBRAW_IMAGE_BITMAP` of the LibRaw headers, which are not part of the sources
(there the other kind, a JPEG thumbnail, is 1 and a bitmap is 2). -/
def LIBRAW_IMAGE_BITMAP : Nat := 2

/-- Modelled from the spec: the image handle `libraw_processed_image_t` of the
LibRaw headers (kind, height, width, channel count, bit depth, byte size and
the raw byte buffer).  Machine integers are naturals; `data` holds the bytes
found at `image->data`. -/
structure libraw_processed_image_t where
  type : Nat
  height : Nat
  width : Nat
  colors : Nat
  bits : Nat
  data_size : Nat
  data : List Nat
deriving DecidableEq, Repr

/-- The fields of `processor.imgdata.params` that `open_and_process` writes.
The two `double` entries `gamm[0]`, `gamm[1]` and `adjust_maximum_thr` only
ever receive the exactly representable constants `1.0` and `0.0`; they are
kept as integers. -/
structure libraw_output_params_t where
  output_bps : Int
  gamm0 : Int
  gamm1 : Int
  use_camera_wb : Int
  use_camera_matrix : Int
  no_auto_bright : Int
  adjust_maximum_thr : Int
deriving DecidableEq, Repr

/-- The member `LibRaw processor`: the parameters this file writes, and the
rest of the engine state, which is opaque to this file. -/
structure LibRaw (σ : Type) where
  params : libraw_output_params_t
  state : σ

/-- The behaviour of the engine: each stage call reads the engine object and
returns a status together with the engine object it leaves behind.
`dcraw_make_mem_image` returns the image pointer (`none` for a null pointer)
and the status it stores through its argument. -/
structure Engine (σ : Type) where
  open_file : LibRaw σ → String → Int × LibRaw σ
  unpack : LibRaw σ → Int × LibRaw σ
  dcraw_process : LibRaw σ → Int × LibRaw σ
  dcraw_make_mem_image : LibRaw σ → (Option libraw_processed_image_t × Int) × LibRaw σ

/-- A record of one call into the engine, in the order the calls are made. -/
inductive EngineCall where
  | dcraw_clear_mem (image : libraw_processed_image_t)
  | open_file (path : String) (params : libraw_output_params_t)
  | unpack
  | dcraw_process
  | dcraw_make_mem_image (result : Option libraw_processed_image_t)
deriving DecidableEq, Repr

/-! ## Errors -/

/-- The `std::runtime_error` thrown at each throw site of `raw_processor.cc`,
named by the error kind of the specification; the arguments are exactly the
values the message is built from. -/
inductive DecodeError where
  /-- The text "Failed to open file: " followed by `libraw_strerror(ret)`. -/
  | OpenFailed (ret : Int)
  /-- The text "Failed to unpack RAW data: " followed by `libraw_strerror(ret)`. -/
  | UnpackFailed (ret : Int)
  /-- The text "Failed to process image: " followed by `libraw_strerror(ret)`. -/
  | ProcessFailed (ret : Int)
  /-- The text "Failed to create memory image: " followed by `libraw_strerror(ret)`. -/
  | ExtractFailed (ret : Int)
  /-- The text "Image is not a bitmap". -/
  | NotABitmap
  /-- The text "Image is not RGB (expected 3 colors)". -/
  | UnsupportedColorSpace
  /-- The text "No image loaded". -/
  | NoImageLoaded
  /-- The text "Expected bit depth of 8" or "Expected bit depth of 16". -/
  | BitDepthMismatch (expected : Nat)
  /-- The text "Buffer size mismatch. Expected E bytes, got A bytes". -/
  | BufferSizeMismatch (expected : Nat) (actual : Nat)
deriving DecidableEq, Repr

/-- The message `what()` of the exception; `libraw_strerror` is the engine's
status description. -/
def DecodeError.what (libraw_strerror : Int → String) : DecodeError → String
  | .OpenFailed ret => "Failed to open file: " ++ libraw_strerror ret
  | .UnpackFailed ret => "Failed to unpack RAW data: " ++ libraw_strerror ret
  | .ProcessFailed ret => "Failed to process image: " ++ libraw_strerror ret
  | .ExtractFailed ret => "Failed to create memory image: " ++ libraw_strerror ret
  | .NotABitmap => "Image is not a bitmap"
  | .UnsupportedColorSpace => "Image is not RGB (expected 3 colors)"
  | .NoImageLoaded => "No image loaded"
  | .BitDepthMismatch expected => "Expected bit depth of " ++ toString expected
  | .BufferSizeMismatch expected actual =>
      "Buffer size mismatch. Expected " ++ toString expected ++ " bytes, got " ++
        toString actual ++ " bytes"

/-! ## The session -/

/-- The class `RawProcessor`: the engine object, the image pointer (`none` is
`nullptr`), and the record of the engine calls made so far. -/
structure RawProcessor (σ : Type) where
  processor : LibRaw σ
  image : Option libraw_processed_image_t
  log : List EngineCall

/-- The constructor `RawProcessor()` behind `new_raw_processor`: `image(nullptr)`
next to a default-constructed engine object `init`. -/
def new_raw_processor {σ : Type} (init : LibRaw σ) : RawProcessor σ :=
  { processor := init, image := none, log := [] }

/-- The first lines of `open_and_process`: a present image is released with
`dcraw_clear_mem` and the pointer is set to null. -/
def clear_image {σ : Type} (self : RawProcessor σ) : RawProcessor σ :=
  match self.image with
  | some img => { self with image := none, log := self.log ++ [EngineCall.dcraw_clear_mem img] }
  | none => self

/-- The constants written to `processor.imgdata.params` (the `OUT` lines). -/
def policy : libraw_output_params_t :=
  { output_bps := 16, gamm0 := 1, gamm1 := 1, use_camera_wb := 1,
    use_camera_matrix := 1, no_auto_bright := 1, adjust_maximum_thr := 0 }

/-- The `OUT.field = value` lines of `open_and_process`. -/
def write_params {σ : Type} (self : RawProcessor σ) : RawProcessor σ :=
  { self with processor := { self.processor with params := policy } }

/-- The method `RawProcessor::open_and_process`: the result (an exception or a
normal return) and the object as the call leaves it. -/
def open_and_process {σ : Type} (eng : Engine σ) (self : RawProcessor σ) (path : String) :
    Except DecodeError Unit × RawProcessor σ :=
  let s0 := write_params (clear_image self)
  let r1 := eng.open_file s0.processor path
  let s1 : RawProcessor σ :=
    { s0 with processor := r1.2, log := s0.log ++ [EngineCall.open_file path s0.processor.params] }
  if r1.1 ≠ LIBRAW_SUCCESS then (Except.error (DecodeError.OpenFailed r1.1), s1) else
  let r2 := eng.unpack s1.processor
  let s2 : RawProcessor σ := { s1 with processor := r2.2, log := s1.log ++ [EngineCall.unpack] }
  if r2.1 ≠ LIBRAW_SUCCESS then (Except.error (DecodeError.UnpackFailed r2.1), s2) else
  let r3 := eng.dcraw_process s2.processor
  let s3 : RawProcessor σ :=
    { s2 with processor := r3.2, log := s2.log ++ [EngineCall.dcraw_process] }
  if r3.1 ≠ LIBRAW_SUCCESS then (Except.error (DecodeError.ProcessFailed r3.1), s3) else
  let r4 := eng.dcraw_make_mem_image s3.processor
  let s4 : RawProcessor σ :=
    { processor := r4.2, image := r4.1.1,
      log := s3.log ++ [EngineCall.dcraw_make_mem_image r4.1.1] }
  match r4.1.1 with
  | none => (Except.error (DecodeError.ExtractFailed r4.1.2), s4)
  | some img =>
    if img.type ≠ LIBRAW_IMAGE_BITMAP then (Except.error DecodeError.NotABitmap, s4) else
    if img.colors ≠ 3 then (Except.error DecodeError.UnsupportedColorSpace, s4) else
    (Except.ok (), s4)

/-- The method `RawProcessor::get_width`. -/
def get_width {σ : Type} (self : RawProcessor σ) : Except DecodeError Nat :=
  match self.image with
  | none => Except.error DecodeError.NoImageLoaded
  | some img => Except.ok img.width

/-- The method `RawProcessor::get_height`. -/
def get_height {σ : Type} (self : RawProcessor σ) : Except DecodeError Nat :=
  match self.image with
  | none => Except.error DecodeError.NoImageLoaded
  | some img => Except.ok img.height

/-- The method `RawProcessor::get_bits`. -/
def get_bits {σ : Type} (self : RawProcessor σ) : Except DecodeError Nat :=
  match self.image with
  | none => Except.error DecodeError.NoImageLoaded
  | some img => Except.ok img.bits

/-- The method `RawProcessor::get_data_size`. -/
def get_data_size {σ : Type} (self : RawProcessor σ) : Except DecodeError Nat :=
  match self.image with
  | none => Except.error DecodeError.NoImageLoaded
  | some img => Except.ok img.data_size

/-! ## Copy-out -/

/-- The call `memcpy(dst, src, n)` on byte sequences: the first `n` bytes of
`dst` are replaced by the first `n` bytes of `src`, the rest of `dst` stays. -/
def memcpy (dst src : List Nat) (n : Nat) : List Nat :=
  src.take n ++ dst.drop n

/-- The outcome of a copy-out call: the result, the caller's buffer and the
object after the call. -/
structure CopyOut (σ : Type) (β : Type) where
  result : Except DecodeError Unit
  buffer : β
  self : RawProcessor σ

/-- The method `RawProcessor::copy_data_to_buffer_u8`; `buffer.size()` of a
`rust::Slice<uint8_t>` is its number of bytes. -/
def copy_data_to_buffer_u8 {σ : Type} (self : RawProcessor σ) (buffer : List Nat) :
    CopyOut σ (List Nat) :=
  match self.image with
  | none => ⟨Except.error DecodeError.NoImageLoaded, buffer, self⟩
  | some img =>
    if img.bits ≠ 8 then ⟨Except.error (DecodeError.BitDepthMismatch 8), buffer, self⟩ else
    if buffer.length ≠ img.data_size then
      ⟨Except.error (DecodeError.BufferSizeMismatch img.data_size buffer.length), buffer, self⟩
    else ⟨Except.ok (), memcpy buffer img.data img.data_size, self⟩

/-- A `rust::Slice<uint16_t>`: every element occupies two consecutive bytes of
memory, kept here in address order. -/
structure SliceU16 where
  elems : List (Nat × Nat)
deriving DecidableEq, Repr

/-- The member `size()` of a `rust::Slice<uint16_t>`: the number of elements. -/
def SliceU16.size (b : SliceU16) : Nat := b.elems.length

/-- The memory of a 16-bit slice read as bytes, in address order. -/
def bytes_of_elems : List (Nat × Nat) → List Nat
  | [] => []
  | e :: rest => e.1 :: e.2 :: bytes_of_elems rest

/-- The elements of a 16-bit slice whose memory holds the given bytes. -/
def elems_of_bytes : List Nat → List (Nat × Nat)
  | a :: b :: rest => (a, b) :: elems_of_bytes rest
  | _ => []

/-- The memory of a 16-bit slice as bytes: two per element. -/
def SliceU16.bytes (b : SliceU16) : List Nat := bytes_of_elems b.elems

/-- The method `RawProcessor::copy_data_to_buffer_u16`; `buffer.size()` of a
`rust::Slice<uint16_t>` is its number of elements, and `memcpy` writes to the
memory of the slice. -/
def copy_data_to_buffer_u16 {σ : Type} (self : RawProcessor σ) (buffer : SliceU16) :
    CopyOut σ SliceU16 :=
  match self.image with
  | none => ⟨Except.error DecodeError.NoImageLoaded, buffer, self⟩
  | some img =>
    if img.bits ≠ 16 then ⟨Except.error (DecodeError.BitDepthMismatch 16), buffer, self⟩ else
    if buffer.size ≠ img.data_size then
      ⟨Except.error (DecodeError.BufferSizeMismatch img.data_size buffer.size), buffer, self⟩
    else ⟨Except.ok (), ⟨elems_of_bytes (memcpy buffer.bytes img.data img.data_size)⟩, self⟩

/-- The destructor `RawProcessor::~RawProcessor`: a present image is released;
the value is the record of engine calls at the end of the object's life. -/
def destroy {σ : Type} (self : RawProcessor σ) : List EngineCall :=
  match self.image with
  | some img => self.log ++ [EngineCall.dcraw_clear_mem img]
  | none => self.log

/-! ## What the engine answers during one decode -/

/-- The engine object at the moment `open_and_process` calls `open_file`. -/
def at_open {σ : Type} (self : RawProcessor σ) : LibRaw σ :=
  (write_params (clear_image self)).processor

/-- The answer of the engine to `open_file` in a decode of `path`. -/
def open_answer {σ : Type} (eng : Engine σ) (self : RawProcessor σ) (path : String) :
    Int × LibRaw σ :=
  eng.open_file (at_open self) path

/-- The answer of the engine to `unpack` when called after `open_file`. -/
def unpack_answer {σ : Type} (eng : Engine σ) (self : RawProcessor σ) (path : String) :
    Int × LibRaw σ :=
  eng.unpack (open_answer eng self path).2

/-- The answer of the engine to `dcraw_process` when called after `unpack`. -/
def process_answer {σ : Type} (eng : Engine σ) (self : RawProcessor σ) (path : String) :
    Int × LibRaw σ :=
  eng.dcraw_process (unpack_answer eng self path).2

/-- The answer of the engine to `dcraw_make_mem_image` when called after
`dcraw_process`: the image pointer and the status. -/
def extract_answer {σ : Type} (eng : Engine σ) (self : RawProcessor σ) (path : String) :
    Option libraw_processed_image_t × Int :=
  (eng.dcraw_make_mem_image (process_answer eng self path).2).1

/-! ## Test doubles -/

/-- An engine without state of its own that answers every decode with the
given statuses and the given extracted image. -/
def scripted (o u p : Int) (image : Option libraw_processed_image_t) (e : Int) : Engine Unit :=
  { open_file := fun l _ => (o, l)
    unpack := fun l => (u, l)
    dcraw_process := fun l => (p, l)
    dcraw_make_mem_image := fun l => ((image, e), l) }

/-- A default-constructed engine object of the stateless test engine. -/
def init0 : LibRaw Unit :=
  { params := { output_bps := 8, gamm0 := 0, gamm1 := 0, use_camera_wb := 0,
                use_camera_matrix := 0, no_auto_bright := 0, adjust_maximum_thr := 0 }
    state := () }

/-- A 16-bit RGB bitmap of one pixel: six bytes. -/
def img16 : libraw_processed_image_t :=
  { type := LIBRAW_IMAGE_BITMAP, height := 1, width := 1, colors := 3, bits := 16,
    data_size := 6, data := [1, 2, 3, 4, 5, 6] }

/-- An 8-bit RGB bitmap of one pixel: three bytes. -/
def img8 : libraw_processed_image_t :=
  { type := LIBRAW_IMAGE_BITMAP, height := 1, width := 1, colors := 3, bits := 8,
    data_size := 3, data := [7, 8, 9] }

/-- An extracted image whose kind is not bitmap (kind 1, a JPEG). -/
def imgJpeg : libraw_processed_image_t :=
  { type := 1, height := 2, width := 5, colors := 3, bits := 8,
    data_size := 4, data := [255, 216, 255, 217] }

/-- A single-channel 8-bit bitmap of two pixels. -/
def imgMono : libraw_processed_image_t :=
  { type := LIBRAW_IMAGE_BITMAP, height := 1, width := 2, colors := 1, bits := 8,
    data_size := 2, data := [10, 20] }

/-- A four-channel 8-bit bitmap of one pixel. -/
def imgFour : libraw_processed_image_t :=
  { type := LIBRAW_IMAGE_BITMAP, height := 1, width := 1, colors := 4, bits := 8,
    data_size := 4, data := [11, 12, 13, 14] }

/-- A session of the stateless test engine that holds `image`. -/
def holding (image : libraw_processed_image_t) : RawProcessor Unit :=
  { processor := { params := policy, state := () }, image := some image,
    log := [EngineCall.open_file "a.raw" policy, EngineCall.unpack, EngineCall.dcraw_process,
            EngineCall.dcraw_make_mem_image (some image)] }

/-- A fresh session of the stateless test engine. -/
def fresh0 : RawProcessor Unit := new_raw_processor init0

/-- A decode on a fresh session in which every stage succeeds and the engine
extracts the 16-bit bitmap `img16`. -/
def decode16 : Except DecodeError Unit × RawProcessor Unit :=
  open_and_process (scripted 0 0 0 (some img16) 0) fresh0 "a.raw"

/-- A decode on a fresh session in which every stage succeeds and the engine
extracts the 8-bit bitmap `img8`. -/
def decode8 : Except DecodeError Unit × RawProcessor Unit :=
  open_and_process (scripted 0 0 0 (some img8) 0) fresh0 "a.raw"

/-- A decode on a fresh session in which every stage succeeds and the engine
extracts an image that is not a bitmap. -/
def decodeJpeg : Except DecodeError Unit × RawProcessor Unit :=
  open_and_process (scripted 0 0 0 (some imgJpeg) 0) fresh0 "a.raw"

/-- A decode on a fresh session in which every stage succeeds and the engine
extracts a four-channel bitmap. -/
def decodeFour : Except DecodeError Unit × RawProcessor Unit :=
  open_and_process (scripted 0 0 0 (some imgFour) 0) fresh0 "a.raw"

/-- A decode on a fresh session in which every stage succeeds and the engine
extracts a single-channel bitmap. -/
def decodeMono : Except DecodeError Unit × RawProcessor Unit :=
  open_and_process (scripted 0 0 0 (some imgMono) 0) fresh0 "a.raw"

/-! ## Sequences of calls -/

/-- One of the four accessor methods. -/
inductive Accessor where
  | get_width
  | get_height
  | get_bits
  | get_data_size
deriving DecidableEq, Repr

/-- A call of an accessor: the value it returns or throws, and the object
after the call; the accessors are `const` methods and write no member. -/
def Accessor.call {σ : Type} (a : Accessor) (self : RawProcessor σ) :
    Except DecodeError Nat × RawProcessor σ :=
  match a with
  | .get_width => (Yancy.get_width self, self)
  | .get_height => (Yancy.get_height self, self)
  | .get_bits => (Yancy.get_bits self, self)
  | .get_data_size => (Yancy.get_data_size self, self)

/-- The field of the image handle that an accessor reads. -/
def Accessor.field (a : Accessor) (image : libraw_processed_image_t) : Nat :=
  match a with
  | .get_width => image.width
  | .get_height => image.height
  | .get_bits => image.bits
  | .get_data_size => image.data_size

/-- A sequence of accessor calls, one after the other on the same object: the
values returned, in order, and the object after the last call. -/
def call_accessors {σ : Type} (self : RawProcessor σ) :
    List Accessor → List (Except DecodeError Nat) × RawProcessor σ
  | [] => ([], self)
  | a :: rest =>
    ((a.call self).1 :: (call_accessors (a.call self).2 rest).1,
     (call_accessors (a.call self).2 rest).2)

/-- One call of a public method of `RawProcessor`, with its arguments. -/
inductive Call where
  | open_and_process (path : String)
  | accessor (a : Accessor)
  | copy_data_to_buffer_u8 (buffer : List Nat)
  | copy_data_to_buffer_u16 (buffer : SliceU16)
deriving DecidableEq, Repr

/-- The object after one call of a public method. -/
def step {σ : Type} (eng : Engine σ) (self : RawProcessor σ) : Call → RawProcessor σ
  | .open_and_process path => (Yancy.open_and_process eng self path).2
  | .accessor a => (a.call self).2
  | .copy_data_to_buffer_u8 buffer => (Yancy.copy_data_to_buffer_u8 self buffer).self
  | .copy_data_to_buffer_u16 buffer => (Yancy.copy_data_to_buffer_u16 self buffer).self

/-- The object after a sequence of calls. -/
def run {σ : Type} (eng : Engine σ) (self : RawProcessor σ) (calls : List Call) :
    RawProcessor σ :=
  calls.foldl (step eng) self

/-- The calls into the engine made during one decode: what `open_and_process`
adds to the record. -/
def decode_calls {σ : Type} (eng : Engine σ) (self : RawProcessor σ) (path : String) :
    List EngineCall :=
  (open_and_process eng self path).2.log.drop self.log.length

/-! ## The ledger of image handles -/

/-- The image handles handed out by `dcraw_make_mem_image` and not yet given
back to `dcraw_clear_mem`: none, one, or a breach of the discipline (a second
unreleased handle, or the release of a handle that is not held). -/
inductive Ledger where
  | breach
  | empty
  | held (image : libraw_processed_image_t)
deriving DecidableEq, Repr

/-- The ledger after one more engine call. -/
def Ledger.record : Ledger → EngineCall → Ledger
  | .breach, _ => .breach
  | .empty, .dcraw_make_mem_image (some image) => .held image
  | .held _, .dcraw_make_mem_image (some _) => .breach
  | .empty, .dcraw_clear_mem _ => .breach
  | .held image, .dcraw_clear_mem released => if released = image then .empty else .breach
  | l, _ => l

/-- The ledger at the end of a record of engine calls. -/
def ledger (log : List EngineCall) : Ledger :=
  log.foldl Ledger.record Ledger.empty

/-- The number of releases in a record of engine calls. -/
def releases (log : List EngineCall) : Nat :=
  (log.filter (fun c => match c with
    | .dcraw_clear_mem _ => true
    | _ => false)).length

/-- The number of non-null images extracted in a record of engine calls. -/
def extractions (log : List EngineCall) : Nat :=
  (log.filter (fun c => match c with
    | .dcraw_make_mem_image (some _) => true
    | _ => false)).length

/-! ## What the engine answered during one decode -/

/-- An answer of the engine to a stage call. -/
inductive Response where
  | status (ret : Int)
  | image (pointer : Option libraw_processed_image_t) (ret : Int)
deriving DecidableEq, Repr

/-- The answers the engine gives during one decode, in order: one status per
stage call made, and for the extract call the image pointer and the status. -/
def responses {σ : Type} (eng : Engine σ) (self : RawProcessor σ) (path : String) :
    List Response :=
  if (open_answer eng self path).1 ≠ LIBRAW_SUCCESS then
    [Response.status (open_answer eng self path).1]
  else if (unpack_answer eng self path).1 ≠ LIBRAW_SUCCESS then
    [Response.status (open_answer eng self path).1,
     Response.status (unpack_answer eng self path).1]
  else if (process_answer eng self path).1 ≠ LIBRAW_SUCCESS then
    [Response.status (open_answer eng self path).1,
     Response.status (unpack_answer eng self path).1,
     Response.status (process_answer eng self path).1]
  else
    [Response.status (open_answer eng self path).1,
     Response.status (unpack_answer eng self path).1,
     Response.status (process_answer eng self path).1,
     Response.image (extract_answer eng self path).1 (extract_answer eng self path).2]

/-! ## The size of an extracted image -/

/-- Modelled from the spec: the byte size that the engine's
`dcraw_make_mem_image`, which is LibRaw code and not part of the sources, gives
to the handle it returns: `data_size = width * height * colors * (bits / 8)`,
in exact integer arithmetic. -/
def sized_by_engine (image : libraw_processed_image_t) : Prop :=
  image.data_size = image.width * image.height * image.colors * (image.bits / 8)

/-! ## More test doubles -/

/-- A 12-bit RGB bitmap of one pixel. -/
def img12 : libraw_processed_image_t :=
  { type := LIBRAW_IMAGE_BITMAP, height := 1, width := 1, colors := 3, bits := 12,
    data_size := 6, data := [1, 2, 3, 4, 5, 6] }

/-- A status description for the test engine. -/
def strerror0 (ret : Int) : String :=
  if ret = 0 then "No error" else "Input/output error"

/-- Whether the characters `hay` begin with the characters `needle`. -/
def starts_with : List Char → List Char → Bool
  | _, [] => true
  | [], _ :: _ => false
  | h :: hs, n :: ns => h == n && starts_with hs ns

/-- Whether the characters `needle` occur, in a row, somewhere in `hay`. -/
def occurs_in (needle : List Char) : List Char → Bool
  | [] => needle.isEmpty
  | h :: hs => starts_with (h :: hs) needle || occurs_in needle hs

/-- A decode on a fresh session in which every stage succeeds and the engine
extracts the 12-bit bitmap `img12`. -/
def decode12 : Except DecodeError Unit × RawProcessor Unit :=
  open_and_process (scripted 0 0 0 (some img12) 0) fresh0 "a.raw"

/-- The ledger in which exactly the given image pointer is unreleased. -/
def Ledger.of_image : Option libraw_processed_image_t → Ledger
  | none => Ledger.empty
  | some image => Ledger.held image

/-- The number of unreleased handles in a ledger. -/
def Ledger.pending : Ledger → Nat
  | .held _ => 1
  | _ => 0

/-! ## Lemmas on the decode pipeline -/

theorem clear_image_image {σ : Type} (self : RawProcessor σ) : (clear_image self).image = none := by
  unfold clear_image
  cases h : self.image <;> simp [h]

theorem write_params_image {σ : Type} (self : RawProcessor σ) :
    (write_params self).image = self.image := rfl

theorem open_and_process_open_failed {σ : Type} (eng : Engine σ) (self : RawProcessor σ)
    (path : String) (h : (open_answer eng self path).1 ≠ LIBRAW_SUCCESS) :
    (open_and_process eng self path).1
        = Except.error (DecodeError.OpenFailed (open_answer eng self path).1)
      ∧ (open_and_process eng self path).2.image = none := by
  simp only [open_answer, at_open] at h
  simp [open_and_process, h, open_answer, at_open, write_params_image, clear_image_image]

theorem open_and_process_unpack_failed {σ : Type} (eng : Engine σ) (self : RawProcessor σ)
    (path : String) (h1 : (open_answer eng self path).1 = LIBRAW_SUCCESS)
    (h2 : (unpack_answer eng self path).1 ≠ LIBRAW_SUCCESS) :
    (open_and_process eng self path).1
        = Except.error (DecodeError.UnpackFailed (unpack_answer eng self path).1)
      ∧ (open_and_process eng self path).2.image = none := by
  simp only [unpack_answer, open_answer, at_open] at h1 h2
  simp [open_and_process, h1, h2, unpack_answer, open_answer, at_open, write_params_image,
    clear_image_image]

theorem open_and_process_process_failed {σ : Type} (eng : Engine σ) (self : RawProcessor σ)
    (path : String) (h1 : (open_answer eng self path).1 = LIBRAW_SUCCESS)
    (h2 : (unpack_answer eng self path).1 = LIBRAW_SUCCESS)
    (h3 : (process_answer eng self path).1 ≠ LIBRAW_SUCCESS) :
    (open_and_process eng self path).1
        = Except.error (DecodeError.ProcessFailed (process_answer eng self path).1)
      ∧ (open_and_process eng self path).2.image = none := by
  simp only [process_answer, unpack_answer, open_answer, at_open] at h1 h2 h3
  simp [open_and_process, h1, h2, h3, process_answer, unpack_answer, open_answer, at_open,
    write_params_image, clear_image_image]

theorem open_and_process_extracted {σ : Type} (eng : Engine σ) (self : RawProcessor σ)
    (path : String) (h1 : (open_answer eng self path).1 = LIBRAW_SUCCESS)
    (h2 : (unpack_answer eng self path).1 = LIBRAW_SUCCESS)
    (h3 : (process_answer eng self path).1 = LIBRAW_SUCCESS) :
    (open_and_process eng self path).1
        = (match (extract_answer eng self path).1 with
           | none => Except.error (DecodeError.ExtractFailed (extract_answer eng self path).2)
           | some img =>
             if img.type ≠ LIBRAW_IMAGE_BITMAP then Except.error DecodeError.NotABitmap
             else if img.colors ≠ 3 then Except.error DecodeError.UnsupportedColorSpace
             else Except.ok ())
      ∧ (open_and_process eng self path).2.image = (extract_answer eng self path).1 := by
  simp only [process_answer, unpack_answer, open_answer, at_open] at h1 h2 h3
  simp only [open_and_process, h1, h2, h3, extract_answer, process_answer, unpack_answer,
    open_answer, at_open, ne_eq, not_true_eq_false, if_false]
  cases h : (eng.dcraw_make_mem_image _).1.1 with
  | none => simp
  | some img =>
    by_cases hb : img.type = LIBRAW_IMAGE_BITMAP <;> by_cases hc : img.colors = 3 <;>
      simp [hb, hc]

/-! ## Lemmas on copy-out -/

theorem memcpy_all (dst src : List Nat) (n : Nat) (hd : dst.length = n) (hs : src.length = n) :
    memcpy dst src n = src := by
  subst hs
  simp [memcpy, ← hd]

/-! ## C1: a failed decode and the current image -/

/-- C1, evaluated at two failing inputs: on a fresh session every engine stage
succeeds and the extracted image is a four-channel bitmap, or is not a bitmap.
The decode fails with `UnsupportedColorSpace`, or with `NotABitmap`, but the
session keeps the extracted image: the four accessors return its values and
`copy_data_to_buffer_u8` copies its bytes, whereas on a freshly constructed
session `get_width` fails with `NoImageLoaded`. -/
theorem C1_failed_shape_check_keeps_image :
    decodeFour.1 = Except.error DecodeError.UnsupportedColorSpace
      ∧ decodeFour.2.image = some imgFour
      ∧ get_width decodeFour.2 = Except.ok 1
      ∧ get_height decodeFour.2 = Except.ok 1
      ∧ get_bits decodeFour.2 = Except.ok 8
      ∧ get_data_size decodeFour.2 = Except.ok 4
      ∧ (copy_data_to_buffer_u8 decodeFour.2 [0, 0, 0, 0]).result = Except.ok ()
      ∧ (copy_data_to_buffer_u8 decodeFour.2 [0, 0, 0, 0]).buffer = [11, 12, 13, 14]
      ∧ decodeJpeg.1 = Except.error DecodeError.NotABitmap
      ∧ decodeJpeg.2.image = some imgJpeg
      ∧ get_width decodeJpeg.2 = Except.ok 5
      ∧ get_width fresh0 = Except.error DecodeError.NoImageLoaded :=
  ⟨rfl, rfl, rfl, rfl, rfl, rfl, rfl, rfl, rfl, rfl, rfl, rfl⟩

/-! ## C2: acceptance of a 16-bit buffer -/

/-- C2, evaluated at a failing input: after a successful decode of a 16-bit
image of 6 bytes, `copy_data_to_buffer_u16` rejects the buffer of 3 elements
(3 x 2 = 6 bytes, the correct size) with a size mismatch whose actual value is
the element count 3, and accepts a buffer of 6 elements (12 bytes). -/
theorem C2_u16_size_check_counts_elements :
    decode16.1 = Except.ok ()
      ∧ get_bits decode16.2 = Except.ok 16
      ∧ get_data_size decode16.2 = Except.ok 6
      ∧ (copy_data_to_buffer_u16 decode16.2 ⟨List.replicate 3 (0, 0)⟩).result
          = Except.error (DecodeError.BufferSizeMismatch 6 3)
      ∧ (copy_data_to_buffer_u16 decode16.2 ⟨List.replicate 6 (0, 0)⟩).result = Except.ok () :=
  ⟨rfl, rfl, rfl, rfl, rfl⟩

/-! ## C3: the outcome of the 8-bit copy-out -/

/-- C3: the outcome of `copy_data_to_buffer_u8` is decided in the order: no
current image gives `NoImageLoaded`; otherwise a bit depth other than 8 gives
`BitDepthMismatch`, whatever the buffer length; otherwise a length other than
`data_size` gives `BufferSizeMismatch` with expected `data_size` and actual the
buffer length; otherwise the call succeeds.  With an image present it succeeds
if and only if the bit depth is 8 and the buffer length is `data_size`. -/
theorem C3_copy_u8_outcome {σ : Type} (self : RawProcessor σ) (buffer : List Nat) :
    (self.image = none →
        (copy_data_to_buffer_u8 self buffer).result = Except.error DecodeError.NoImageLoaded)
      ∧ (∀ img, self.image = some img → img.bits ≠ 8 →
          (copy_data_to_buffer_u8 self buffer).result
            = Except.error (DecodeError.BitDepthMismatch 8))
      ∧ (∀ img, self.image = some img → img.bits = 8 → buffer.length ≠ img.data_size →
          (copy_data_to_buffer_u8 self buffer).result
            = Except.error (DecodeError.BufferSizeMismatch img.data_size buffer.length))
      ∧ (∀ img, self.image = some img → img.bits = 8 → buffer.length = img.data_size →
          (copy_data_to_buffer_u8 self buffer).result = Except.ok ())
      ∧ (∀ img, self.image = some img →
          ((copy_data_to_buffer_u8 self buffer).result = Except.ok ()
            ↔ img.bits = 8 ∧ buffer.length = img.data_size)) := by
  refine ⟨?_, ?_, ?_, ?_, ?_⟩
  · intro h
    simp [copy_data_to_buffer_u8, h]
  · intro img h hb
    simp [copy_data_to_buffer_u8, h, hb]
  · intro img h hb hl
    simp [copy_data_to_buffer_u8, h, hb, hl]
  · intro img h hb hl
    simp [copy_data_to_buffer_u8, h, hb, hl]
  · intro img h
    by_cases hb : img.bits = 8 <;> by_cases hl : buffer.length = img.data_size <;>
      simp [copy_data_to_buffer_u8, h, hb, hl]

/-- C3 at concrete inputs: a 16-bit image and a buffer of the wrong length give
`BitDepthMismatch`, not a size mismatch. -/
theorem C3_copy_u8_outcome_witness :
    (copy_data_to_buffer_u8 decode16.2 [0]).result
      = Except.error (DecodeError.BitDepthMismatch 8) :=
  (C3_copy_u8_outcome decode16.2 [0]).2.1 img16 rfl (by decide)

/-! ## C4: the outcome of a decode -/

/-- C4: the result of `open_and_process` is decided by the first failing check
in the order open status, unpack status, process status, null image, image
kind, channel count, with `OpenFailed`, `UnpackFailed`, `ProcessFailed`,
`ExtractFailed`, `NotABitmap` and `UnsupportedColorSpace` respectively; a null
image gives `ExtractFailed` also when the extract status is success; and the
call succeeds if and only if all six checks pass. -/
theorem C4_decode_outcome {σ : Type} (eng : Engine σ) (self : RawProcessor σ) (path : String) :
    ((open_answer eng self path).1 ≠ LIBRAW_SUCCESS →
        (open_and_process eng self path).1
          = Except.error (DecodeError.OpenFailed (open_answer eng self path).1))
      ∧ ((open_answer eng self path).1 = LIBRAW_SUCCESS →
          (unpack_answer eng self path).1 ≠ LIBRAW_SUCCESS →
          (open_and_process eng self path).1
            = Except.error (DecodeError.UnpackFailed (unpack_answer eng self path).1))
      ∧ ((open_answer eng self path).1 = LIBRAW_SUCCESS →
          (unpack_answer eng self path).1 = LIBRAW_SUCCESS →
          (process_answer eng self path).1 ≠ LIBRAW_SUCCESS →
          (open_and_process eng self path).1
            = Except.error (DecodeError.ProcessFailed (process_answer eng self path).1))
      ∧ ((open_answer eng self path).1 = LIBRAW_SUCCESS →
          (unpack_answer eng self path).1 = LIBRAW_SUCCESS →
          (process_answer eng self path).1 = LIBRAW_SUCCESS →
          (extract_answer eng self path).1 = none →
          (open_and_process eng self path).1
            = Except.error (DecodeError.ExtractFailed (extract_answer eng self path).2))
      ∧ ((open_answer eng self path).1 = LIBRAW_SUCCESS →
          (unpack_answer eng self path).1 = LIBRAW_SUCCESS →
          (process_answer eng self path).1 = LIBRAW_SUCCESS →
          extract_answer eng self path = (none, LIBRAW_SUCCESS) →
          (open_and_process eng self path).1
            = Except.error (DecodeError.ExtractFailed LIBRAW_SUCCESS))
      ∧ (∀ img, (open_answer eng self path).1 = LIBRAW_SUCCESS →
          (unpack_answer eng self path).1 = LIBRAW_SUCCESS →
          (process_answer eng self path).1 = LIBRAW_SUCCESS →
          (extract_answer eng self path).1 = some img →
          img.type ≠ LIBRAW_IMAGE_BITMAP →
          (open_and_process eng self path).1 = Except.error DecodeError.NotABitmap)
      ∧ (∀ img, (open_answer eng self path).1 = LIBRAW_SUCCESS →
          (unpack_answer eng self path).1 = LIBRAW_SUCCESS →
          (process_answer eng self path).1 = LIBRAW_SUCCESS →
          (extract_answer eng self path).1 = some img →
          img.type = LIBRAW_IMAGE_BITMAP → img.colors ≠ 3 →
          (open_and_process eng self path).1 = Except.error DecodeError.UnsupportedColorSpace)
      ∧ ((open_and_process eng self path).1 = Except.ok ()
          ↔ (open_answer eng self path).1 = LIBRAW_SUCCESS
            ∧ (unpack_answer eng self path).1 = LIBRAW_SUCCESS
            ∧ (process_answer eng self path).1 = LIBRAW_SUCCESS
            ∧ ∃ img, (extract_answer eng self path).1 = some img
                ∧ img.type = LIBRAW_IMAGE_BITMAP ∧ img.colors = 3) := by
  refine ⟨?_, ?_, ?_, ?_, ?_, ?_, ?_, ?_⟩
  · intro h
    exact (open_and_process_open_failed eng self path h).1
  · intro h1 h2
    exact (open_and_process_unpack_failed eng self path h1 h2).1
  · intro h1 h2 h3
    exact (open_and_process_process_failed eng self path h1 h2 h3).1
  · intro h1 h2 h3 h4
    rw [(open_and_process_extracted eng self path h1 h2 h3).1, h4]
  · intro h1 h2 h3 h4
    rw [(open_and_process_extracted eng self path h1 h2 h3).1, h4]
  · intro img h1 h2 h3 h4 hb
    rw [(open_and_process_extracted eng self path h1 h2 h3).1, h4]
    simp [hb]
  · intro img h1 h2 h3 h4 hb hc
    rw [(open_and_process_extracted eng self path h1 h2 h3).1, h4]
    simp [hb, hc]
  · by_cases h1 : (open_answer eng self path).1 = LIBRAW_SUCCESS
    · by_cases h2 : (unpack_answer eng self path).1 = LIBRAW_SUCCESS
      · by_cases h3 : (process_answer eng self path).1 = LIBRAW_SUCCESS
        · rw [(open_and_process_extracted eng self path h1 h2 h3).1]
          cases h4 : (extract_answer eng self path).1 with
          | none => simp [h1, h2, h3]
          | some img =>
            by_cases hb : img.type = LIBRAW_IMAGE_BITMAP <;> by_cases hc : img.colors = 3 <;>
              simp [h1, h2, h3, hb, hc]
        · rw [(open_and_process_process_failed eng self path h1 h2 h3).1]
          simp [h3]
      · rw [(open_and_process_unpack_failed eng self path h1 h2).1]
        simp [h2]
    · rw [(open_and_process_open_failed eng self path h1).1]
      simp [h1]

/-- C4 at a concrete input: the engine reports success for every stage,
extract included, but returns a null image; the decode fails with
`ExtractFailed`. -/
theorem C4_decode_outcome_witness :
    (open_and_process (scripted 0 0 0 none 0) fresh0 "a.raw").1
      = Except.error (DecodeError.ExtractFailed LIBRAW_SUCCESS) :=
  (C4_decode_outcome (scripted 0 0 0 none 0) fresh0 "a.raw").2.2.2.2.1 rfl rfl rfl rfl

/-! ## C5: the shape of the current image -/

/-- C5, evaluated at a failing input: on a fresh session every engine stage
succeeds and the extracted bitmap has a single channel.  The decode fails with
`UnsupportedColorSpace`, and the state reached holds that single-channel image
as the current image: the accessors answer from it. -/
theorem C5_single_channel_image_stored :
    decodeMono.1 = Except.error DecodeError.UnsupportedColorSpace
      ∧ decodeMono.2.image = some imgMono
      ∧ imgMono.colors = 1
      ∧ get_width decodeMono.2 = Except.ok 2
      ∧ get_data_size decodeMono.2 = Except.ok 2 :=
  ⟨rfl, rfl, rfl, rfl, rfl⟩

/-! ## C6: the 8-bit copy -/

/-- C6: when the current image has bit depth 8 and the buffer has `data_size`
bytes (the image buffer holding `data_size` bytes), `copy_data_to_buffer_u8`
succeeds, the buffer afterwards is the image's byte buffer, of `data_size`
bytes and equal to it at every position, and the session is the same as
before: the image and the values of the four accessors are unchanged. -/
theorem C6_copy_u8_exact {σ : Type} (self : RawProcessor σ) (img : libraw_processed_image_t)
    (buffer : List Nat) (himg : self.image = some img) (hbits : img.bits = 8)
    (hlen : buffer.length = img.data_size) (hdata : img.data.length = img.data_size) :
    (copy_data_to_buffer_u8 self buffer).result = Except.ok ()
      ∧ (copy_data_to_buffer_u8 self buffer).buffer = img.data
      ∧ (copy_data_to_buffer_u8 self buffer).buffer.length = img.data_size
      ∧ (∀ i, i < img.data_size →
          (copy_data_to_buffer_u8 self buffer).buffer.get? i = img.data.get? i)
      ∧ (copy_data_to_buffer_u8 self buffer).self = self
      ∧ (copy_data_to_buffer_u8 self buffer).self.image = some img
      ∧ get_width (copy_data_to_buffer_u8 self buffer).self = get_width self
      ∧ get_height (copy_data_to_buffer_u8 self buffer).self = get_height self
      ∧ get_bits (copy_data_to_buffer_u8 self buffer).self = get_bits self
      ∧ get_data_size (copy_data_to_buffer_u8 self buffer).self = get_data_size self := by
  have hr : copy_data_to_buffer_u8 self buffer = ⟨Except.ok (), img.data, self⟩ := by
    simp [copy_data_to_buffer_u8, himg, hbits, hlen, memcpy_all buffer img.data _ hlen hdata]
  rw [hr]
  simp [himg, hdata]

/-- C6 at a concrete input: the session left by a successful decode of the
8-bit image `img8` and a zeroed buffer of three bytes. -/
theorem C6_copy_u8_exact_witness :
    (copy_data_to_buffer_u8 decode8.2 [0, 0, 0]).buffer = [7, 8, 9] :=
  (C6_copy_u8_exact decode8.2 img8 [0, 0, 0] rfl rfl rfl rfl).2.1

/-! ## C7: the 16-bit copy -/

/-- C7, evaluated at a failing input: after a successful decode of a 16-bit
image of 6 bytes, `copy_data_to_buffer_u16` succeeds on a buffer of 6 elements
(12 bytes) filled with the byte 9; afterwards the first 6 bytes of the buffer
are the image bytes and the last 6 bytes still hold 9, so the buffer read as
bytes differs from the image's byte buffer. -/
theorem C7_u16_copy_is_partial :
    (copy_data_to_buffer_u16 decode16.2 ⟨List.replicate 6 (9, 9)⟩).result = Except.ok ()
      ∧ (copy_data_to_buffer_u16 decode16.2 ⟨List.replicate 6 (9, 9)⟩).buffer.bytes
          = [1, 2, 3, 4, 5, 6, 9, 9, 9, 9, 9, 9]
      ∧ (copy_data_to_buffer_u16 decode16.2 ⟨List.replicate 6 (9, 9)⟩).buffer.bytes ≠ img16.data
      ∧ decode16.2.image = some img16 :=
  ⟨rfl, rfl, by decide, rfl⟩

/-! ## C8: a fresh session -/

/-- C8: on a freshly constructed session the four accessors and both copy-out
calls fail with `NoImageLoaded`, for every buffer, the empty one included. -/
theorem C8_fresh_session_no_image {σ : Type} (init : LibRaw σ) (buffer8 : List Nat)
    (buffer16 : SliceU16) :
    get_width (new_raw_processor init) = Except.error DecodeError.NoImageLoaded
      ∧ get_height (new_raw_processor init) = Except.error DecodeError.NoImageLoaded
      ∧ get_bits (new_raw_processor init) = Except.error DecodeError.NoImageLoaded
      ∧ get_data_size (new_raw_processor init) = Except.error DecodeError.NoImageLoaded
      ∧ (copy_data_to_buffer_u8 (new_raw_processor init) buffer8).result
          = Except.error DecodeError.NoImageLoaded
      ∧ (copy_data_to_buffer_u16 (new_raw_processor init) buffer16).result
          = Except.error DecodeError.NoImageLoaded
      ∧ (copy_data_to_buffer_u8 (new_raw_processor init) []).result
          = Except.error DecodeError.NoImageLoaded
      ∧ (copy_data_to_buffer_u16 (new_raw_processor init) ⟨[]⟩).result
          = Except.error DecodeError.NoImageLoaded :=
  ⟨rfl, rfl, rfl, rfl, rfl, rfl, rfl, rfl⟩

/-! ## C9: a failing open -/

/-- C9: whatever the session held before and whatever the path, when the
engine's `open_file` returns a status other than success, `open_and_process`
fails with `OpenFailed` and on the session it leaves the four accessors fail
with `NoImageLoaded`. -/
theorem C9_open_failure {σ : Type} (eng : Engine σ) (self : RawProcessor σ) (path : String)
    (h : (open_answer eng self path).1 ≠ LIBRAW_SUCCESS) :
    (open_and_process eng self path).1
        = Except.error (DecodeError.OpenFailed (open_answer eng self path).1)
      ∧ get_width (open_and_process eng self path).2 = Except.error DecodeError.NoImageLoaded
      ∧ get_height (open_and_process eng self path).2 = Except.error DecodeError.NoImageLoaded
      ∧ get_bits (open_and_process eng self path).2 = Except.error DecodeError.NoImageLoaded
      ∧ get_data_size (open_and_process eng self path).2
          = Except.error DecodeError.NoImageLoaded := by
  obtain ⟨hr, hi⟩ := open_and_process_open_failed eng self path h
  simp [hr, get_width, get_height, get_bits, get_data_size, hi]

/-- C9 at a concrete input: the session holds a valid image from an earlier
successful decode, and the engine then answers `open_file` with status -2. -/
theorem C9_open_failure_witness :
    get_width decode8.2 = Except.ok 1
      ∧ (open_and_process (scripted (-2) 0 0 (some img8) 0) decode8.2 "missing.raw").1
          = Except.error (DecodeError.OpenFailed (-2))
      ∧ get_width (open_and_process (scripted (-2) 0 0 (some img8) 0) decode8.2 "missing.raw").2
          = Except.error DecodeError.NoImageLoaded :=
  ⟨rfl,
   (C9_open_failure (scripted (-2) 0 0 (some img8) 0) decode8.2 "missing.raw" (by decide)).1,
   (C9_open_failure (scripted (-2) 0 0 (some img8) 0) decode8.2 "missing.raw" (by decide)).2.1⟩

/-! ## C10: the size mismatch of the 16-bit copy -/

/-- C10, evaluated at a failing input: after a successful decode of a 16-bit
image of 6 bytes (3 elements), `copy_data_to_buffer_u16` on a buffer of 2
elements, one short, fails with a size mismatch whose actual value is 2, the
element count, not 4, the length in bytes, while the message names it as
bytes; and on a buffer of 6 elements, whose 12 bytes also differ from 6, it
does not fail. -/
theorem C10_u16_mismatch_reports_elements :
    get_bits decode16.2 = Except.ok 16
      ∧ get_data_size decode16.2 = Except.ok 6
      ∧ (copy_data_to_buffer_u16 decode16.2 ⟨List.replicate 2 (0, 0)⟩).result
          = Except.error (DecodeError.BufferSizeMismatch 6 2)
      ∧ (SliceU16.bytes ⟨List.replicate 2 (0, 0)⟩).length = 4
      ∧ (DecodeError.BufferSizeMismatch 6 2).what (fun _ => "")
          = "Buffer size mismatch. Expected 6 bytes, got 2 bytes"
      ∧ (SliceU16.bytes ⟨List.replicate 6 (0, 0)⟩).length ≠ 6
      ∧ (copy_data_to_buffer_u16 decode16.2 ⟨List.replicate 6 (0, 0)⟩).result = Except.ok () :=
  ⟨rfl, rfl, rfl, rfl, by decide, by decide, rfl⟩

/-! ## Lemmas on the record of engine calls -/

theorem clear_image_log {σ : Type} (self : RawProcessor σ) :
    (clear_image self).log
      = self.log ++ (match self.image with
          | some img => [EngineCall.dcraw_clear_mem img]
          | none => []) := by
  unfold clear_image
  cases h : self.image <;> simp

theorem open_and_process_log {σ : Type} (eng : Engine σ) (self : RawProcessor σ)
    (path : String) :
    (open_and_process eng self path).2.log
      = (clear_image self).log ++
        (if (open_answer eng self path).1 ≠ LIBRAW_SUCCESS then
          [EngineCall.open_file path policy]
        else if (unpack_answer eng self path).1 ≠ LIBRAW_SUCCESS then
          [EngineCall.open_file path policy, EngineCall.unpack]
        else if (process_answer eng self path).1 ≠ LIBRAW_SUCCESS then
          [EngineCall.open_file path policy, EngineCall.unpack, EngineCall.dcraw_process]
        else
          [EngineCall.open_file path policy, EngineCall.unpack, EngineCall.dcraw_process,
           EngineCall.dcraw_make_mem_image (extract_answer eng self path).1]) := by
  have hlog : (write_params (clear_image self)).log = (clear_image self).log := rfl
  have hpar : (write_params (clear_image self)).processor.params = policy := rfl
  by_cases h1 : (open_answer eng self path).1 = LIBRAW_SUCCESS
  · by_cases h2 : (unpack_answer eng self path).1 = LIBRAW_SUCCESS
    · by_cases h3 : (process_answer eng self path).1 = LIBRAW_SUCCESS
      · rw [if_neg (by simpa using h1), if_neg (by simpa using h2), if_neg (by simpa using h3)]
        simp only [process_answer, unpack_answer, open_answer, at_open] at h1 h2 h3
        simp only [open_and_process, h1, h2, h3, extract_answer, process_answer, unpack_answer,
          open_answer, at_open, ne_eq, not_true_eq_false, if_false, hlog, hpar]
        cases h : (eng.dcraw_make_mem_image _).1.1 with
        | none => simp
        | some img =>
          by_cases hb : img.type = LIBRAW_IMAGE_BITMAP <;> by_cases hc : img.colors = 3 <;>
            simp [hb, hc]
      · rw [if_neg (by simpa using h1), if_neg (by simpa using h2), if_pos h3]
        simp only [process_answer, unpack_answer, open_answer, at_open] at h1 h2 h3
        simp [open_and_process, h1, h2, h3, hlog, hpar]
    · rw [if_neg (by simpa using h1), if_pos h2]
      simp only [unpack_answer, open_answer, at_open] at h1 h2
      simp [open_and_process, h1, h2, hlog, hpar]
  · rw [if_pos h1]
    simp only [open_answer, at_open] at h1
    simp [open_and_process, h1, hlog, hpar]

theorem open_and_process_image {σ : Type} (eng : Engine σ) (self : RawProcessor σ)
    (path : String) :
    (open_and_process eng self path).2.image
      = (if (open_answer eng self path).1 ≠ LIBRAW_SUCCESS then none
        else if (unpack_answer eng self path).1 ≠ LIBRAW_SUCCESS then none
        else if (process_answer eng self path).1 ≠ LIBRAW_SUCCESS then none
        else (extract_answer eng self path).1) := by
  by_cases h1 : (open_answer eng self path).1 = LIBRAW_SUCCESS
  · by_cases h2 : (unpack_answer eng self path).1 = LIBRAW_SUCCESS
    · by_cases h3 : (process_answer eng self path).1 = LIBRAW_SUCCESS
      · rw [if_neg (by simpa using h1), if_neg (by simpa using h2), if_neg (by simpa using h3)]
        exact (open_and_process_extracted eng self path h1 h2 h3).2
      · rw [if_neg (by simpa using h1), if_neg (by simpa using h2), if_pos h3]
        exact (open_and_process_process_failed eng self path h1 h2 h3).2
    · rw [if_neg (by simpa using h1), if_pos h2]
      exact (open_and_process_unpack_failed eng self path h1 h2).2
  · rw [if_pos h1]
    exact (open_and_process_open_failed eng self path h1).2

theorem open_and_process_result {σ : Type} (eng : Engine σ) (self : RawProcessor σ)
    (path : String) :
    (open_and_process eng self path).1
      = (if (open_answer eng self path).1 ≠ LIBRAW_SUCCESS then
          Except.error (DecodeError.OpenFailed (open_answer eng self path).1)
        else if (unpack_answer eng self path).1 ≠ LIBRAW_SUCCESS then
          Except.error (DecodeError.UnpackFailed (unpack_answer eng self path).1)
        else if (process_answer eng self path).1 ≠ LIBRAW_SUCCESS then
          Except.error (DecodeError.ProcessFailed (process_answer eng self path).1)
        else match (extract_answer eng self path).1 with
          | none => Except.error (DecodeError.ExtractFailed (extract_answer eng self path).2)
          | some img =>
            if img.type ≠ LIBRAW_IMAGE_BITMAP then Except.error DecodeError.NotABitmap
            else if img.colors ≠ 3 then Except.error DecodeError.UnsupportedColorSpace
            else Except.ok ()) := by
  by_cases h1 : (open_answer eng self path).1 = LIBRAW_SUCCESS
  · by_cases h2 : (unpack_answer eng self path).1 = LIBRAW_SUCCESS
    · by_cases h3 : (process_answer eng self path).1 = LIBRAW_SUCCESS
      · rw [if_neg (by simpa using h1), if_neg (by simpa using h2), if_neg (by simpa using h3)]
        exact (open_and_process_extracted eng self path h1 h2 h3).1
      · rw [if_neg (by simpa using h1), if_neg (by simpa using h2), if_pos h3]
        exact (open_and_process_process_failed eng self path h1 h2 h3).1
    · rw [if_neg (by simpa using h1), if_pos h2]
      exact (open_and_process_unpack_failed eng self path h1 h2).1
  · rw [if_pos h1]
    exact (open_and_process_open_failed eng self path h1).1

theorem open_and_process_ok {σ : Type} (eng : Engine σ) (self : RawProcessor σ)
    (path : String) (hok : (open_and_process eng self path).1 = Except.ok ()) :
    (open_answer eng self path).1 = LIBRAW_SUCCESS
      ∧ (unpack_answer eng self path).1 = LIBRAW_SUCCESS
      ∧ (process_answer eng self path).1 = LIBRAW_SUCCESS
      ∧ ∃ img, (extract_answer eng self path).1 = some img
          ∧ img.type = LIBRAW_IMAGE_BITMAP ∧ img.colors = 3
          ∧ (open_and_process eng self path).2.image = some img := by
  have hi := open_and_process_image eng self path
  rw [open_and_process_result] at hok
  by_cases h1 : (open_answer eng self path).1 = LIBRAW_SUCCESS
  · by_cases h2 : (unpack_answer eng self path).1 = LIBRAW_SUCCESS
    · by_cases h3 : (process_answer eng self path).1 = LIBRAW_SUCCESS
      · cases h4 : (extract_answer eng self path).1 with
        | none => simp [h1, h2, h3, h4] at hok
        | some img =>
          by_cases hb : img.type = LIBRAW_IMAGE_BITMAP
          · by_cases hc : img.colors = 3
            · refine ⟨h1, h2, h3, img, rfl, hb, hc, ?_⟩
              simpa [h1, h2, h3, h4] using hi
            · simp [h1, h2, h3, h4, hb, hc] at hok
          · simp [h1, h2, h3, h4, hb] at hok
      · simp [h1, h2, h3] at hok
    · simp [h1, h2] at hok
  · simp [h1] at hok

theorem call_accessors_eq {σ : Type} (self : RawProcessor σ) (calls : List Accessor) :
    call_accessors self calls = (calls.map (fun a => (a.call self).1), self) := by
  induction calls with
  | nil => rfl
  | cons a rest ih =>
    have ha : (a.call self).2 = self := by cases a <;> rfl
    simp [call_accessors, ha, ih]

theorem copy_data_to_buffer_u8_self {σ : Type} (self : RawProcessor σ) (buffer : List Nat) :
    (copy_data_to_buffer_u8 self buffer).self = self := by
  unfold copy_data_to_buffer_u8
  split
  · rfl
  · split_ifs <;> rfl

theorem copy_data_to_buffer_u16_self {σ : Type} (self : RawProcessor σ) (buffer : SliceU16) :
    (copy_data_to_buffer_u16 self buffer).self = self := by
  unfold copy_data_to_buffer_u16
  split
  · rfl
  · split_ifs <;> rfl

/-! ## C11: the byte size of a decoded image -/

/-- C11: for every successful decode, the engine's extract call giving its
handles the byte size `width * height * colors * (bits / 8)`, the accessors
return the width, height, bits and data size of the extracted handle, its
channel count is 3, and the values returned satisfy
`byte_size = width * height * 3 * (bit_depth / 8)`. -/
theorem C11_byte_size_formula {σ : Type} (eng : Engine σ) (self : RawProcessor σ)
    (path : String)
    (hok : (open_and_process eng self path).1 = Except.ok ())
    (hengine : ∀ img, (extract_answer eng self path).1 = some img → sized_by_engine img) :
    (∃ img, (extract_answer eng self path).1 = some img
        ∧ img.colors = 3
        ∧ get_width (open_and_process eng self path).2 = Except.ok img.width
        ∧ get_height (open_and_process eng self path).2 = Except.ok img.height
        ∧ get_bits (open_and_process eng self path).2 = Except.ok img.bits
        ∧ get_data_size (open_and_process eng self path).2 = Except.ok img.data_size)
      ∧ (∀ w h b s,
          get_width (open_and_process eng self path).2 = Except.ok w →
          get_height (open_and_process eng self path).2 = Except.ok h →
          get_bits (open_and_process eng self path).2 = Except.ok b →
          get_data_size (open_and_process eng self path).2 = Except.ok s →
          s = w * h * 3 * (b / 8))
      ∧ (∃ w h b s,
          get_width (open_and_process eng self path).2 = Except.ok w
            ∧ get_height (open_and_process eng self path).2 = Except.ok h
            ∧ get_bits (open_and_process eng self path).2 = Except.ok b
            ∧ get_data_size (open_and_process eng self path).2 = Except.ok s
            ∧ s = w * h * 3 * (b / 8)) := by
  obtain ⟨_, _, _, img, h4, _, hc, hi⟩ := open_and_process_ok eng self path hok
  have hsize : img.data_size = img.width * img.height * 3 * (img.bits / 8) := by
    have hs := hengine img h4
    unfold sized_by_engine at hs
    rw [hs, hc]
  have hw : get_width (open_and_process eng self path).2 = Except.ok img.width := by
    simp [get_width, hi]
  have hh : get_height (open_and_process eng self path).2 = Except.ok img.height := by
    simp [get_height, hi]
  have hb : get_bits (open_and_process eng self path).2 = Except.ok img.bits := by
    simp [get_bits, hi]
  have hd : get_data_size (open_and_process eng self path).2 = Except.ok img.data_size := by
    simp [get_data_size, hi]
  refine ⟨⟨img, h4, hc, hw, hh, hb, hd⟩, ?_, ⟨_, _, _, _, hw, hh, hb, hd, hsize⟩⟩
  intro w h b s ew eh eb es
  rw [hw] at ew
  rw [hh] at eh
  rw [hb] at eb
  rw [hd] at es
  cases ew
  cases eh
  cases eb
  cases es
  exact hsize

/-- C11 at a concrete input: the decode that extracts the 16-bit bitmap `img16`
of one pixel; the accessors return 1, 1, 16 and 6, and 6 is
1 x 1 x 3 x (16 / 8). -/
theorem C11_byte_size_formula_witness :
    get_width decode16.2 = Except.ok 1
      ∧ get_height decode16.2 = Except.ok 1
      ∧ get_bits decode16.2 = Except.ok 16
      ∧ get_data_size decode16.2 = Except.ok 6
      ∧ (6 : Nat) = 1 * 1 * 3 * (16 / 8) :=
  ⟨rfl, rfl, rfl, rfl,
   (C11_byte_size_formula (scripted 0 0 0 (some img16) 0) fresh0 "a.raw" rfl
    (fun img h => by
      have e : img16 = img := Option.some.inj h
      subst e
      unfold sized_by_engine
      decide)).2.1 1 1 16 6 rfl rfl rfl rfl⟩

/-! ## C12: the accessors -/

/-- C12: after a successful decode in which the engine extracted the image
`img`, the four accessors return the width, height, bits and data size of
`img`; and any sequence of accessor calls, in any order and of any length,
returns these values at every call and leaves the session as it was. -/
theorem C12_accessors_pure {σ : Type} (eng : Engine σ) (self : RawProcessor σ)
    (path : String) (img : libraw_processed_image_t)
    (hok : (open_and_process eng self path).1 = Except.ok ())
    (himg : (extract_answer eng self path).1 = some img) :
    get_width (open_and_process eng self path).2 = Except.ok img.width
      ∧ get_height (open_and_process eng self path).2 = Except.ok img.height
      ∧ get_bits (open_and_process eng self path).2 = Except.ok img.bits
      ∧ get_data_size (open_and_process eng self path).2 = Except.ok img.data_size
      ∧ ∀ calls : List Accessor,
          call_accessors (open_and_process eng self path).2 calls
            = (calls.map (fun a => Except.ok (a.field img)), (open_and_process eng self path).2) := by
  obtain ⟨_, _, _, img2, h4, _, _, hi⟩ := open_and_process_ok eng self path hok
  have he : img2 = img := by
    rw [h4] at himg
    exact Option.some.inj himg
  subst he
  refine ⟨?_, ?_, ?_, ?_, ?_⟩
  · simp [get_width, hi]
  · simp [get_height, hi]
  · simp [get_bits, hi]
  · simp [get_data_size, hi]
  · intro calls
    rw [call_accessors_eq]
    congr 1
    apply List.map_congr_left
    intro a _
    cases a <;>
      simp [Accessor.call, Accessor.field, get_width, get_height, get_bits, get_data_size, hi]

/-- C12 at a concrete input: after the decode of `img16`, the calls
`get_bits`, `get_width`, `get_bits`, `get_data_size` return 16, 1, 16, 6 and
leave the session as it was. -/
theorem C12_accessors_pure_witness :
    call_accessors decode16.2
        [Accessor.get_bits, Accessor.get_width, Accessor.get_bits, Accessor.get_data_size]
      = ([Except.ok 16, Except.ok 1, Except.ok 16, Except.ok 6], decode16.2) :=
  (C12_accessors_pure (scripted 0 0 0 (some img16) 0) fresh0 "a.raw" img16 rfl rfl).2.2.2.2
    [Accessor.get_bits, Accessor.get_width, Accessor.get_bits, Accessor.get_data_size]

/-! ## C13: what the open error carries -/

/-- C13 fails as stated: the engine answers `open_file` with status -2 for the
path "missing.raw".  The decode fails with `OpenFailed`, whose message is
"Failed to open file: " followed by the engine's description of the status;
the path does not occur in it, and the decode of another path gives the very
same error. -/
theorem C13_open_error_without_path :
    (open_and_process (scripted (-2) 0 0 none 0) fresh0 "missing.raw").1
        = Except.error (DecodeError.OpenFailed (-2))
      ∧ (DecodeError.OpenFailed (-2)).what strerror0 = "Failed to open file: Input/output error"
      ∧ occurs_in "missing.raw".toList ((DecodeError.OpenFailed (-2)).what strerror0).toList
          = false
      ∧ occurs_in "Input/output error".toList
          ((DecodeError.OpenFailed (-2)).what strerror0).toList = true
      ∧ (open_and_process (scripted (-2) 0 0 none 0) fresh0 "other.raw").1
          = (open_and_process (scripted (-2) 0 0 none 0) fresh0 "missing.raw").1 :=
  ⟨rfl, by decide, by decide, by decide, rfl⟩

/-- C13 as amended: for every path and every status other than success
returned by `open_file`, the decode fails with `OpenFailed`, whose message is
"Failed to open file: " followed by the engine's description of that status;
the error is decided by the status alone: any decode whose open call returns
the same status, whatever its path, fails with the same error. -/
theorem C13_open_error_payload {σ : Type} (eng : Engine σ) (self : RawProcessor σ)
    (path : String) (libraw_strerror : Int → String)
    (h : (open_answer eng self path).1 ≠ LIBRAW_SUCCESS) :
    (open_and_process eng self path).1
        = Except.error (DecodeError.OpenFailed (open_answer eng self path).1)
      ∧ (DecodeError.OpenFailed (open_answer eng self path).1).what libraw_strerror
          = "Failed to open file: " ++ libraw_strerror (open_answer eng self path).1
      ∧ ∀ {τ : Type} (eng2 : Engine τ) (self2 : RawProcessor τ) (path2 : String),
          (open_answer eng2 self2 path2).1 = (open_answer eng self path).1 →
          (open_and_process eng2 self2 path2).1 = (open_and_process eng self path).1 := by
  refine ⟨(open_and_process_open_failed eng self path h).1, rfl, ?_⟩
  intro τ eng2 self2 path2 heq
  have h2 : (open_answer eng2 self2 path2).1 ≠ LIBRAW_SUCCESS := by
    rw [heq]
    exact h
  rw [(open_and_process_open_failed eng self path h).1,
    (open_and_process_open_failed eng2 self2 path2 h2).1, heq]

/-- C13 as amended, at a concrete input: status -2 for the path "missing.raw"
on a session that holds an image. -/
theorem C13_open_error_payload_witness :
    (open_and_process (scripted (-2) 0 0 none 0) decode8.2 "missing.raw").1
        = Except.error (DecodeError.OpenFailed (-2))
      ∧ (DecodeError.OpenFailed (-2)).what strerror0
          = "Failed to open file: " ++ strerror0 (-2) :=
  ⟨(C13_open_error_payload (scripted (-2) 0 0 none 0) decode8.2 "missing.raw" strerror0
      (by decide)).1,
   (C13_open_error_payload (scripted (-2) 0 0 none 0) decode8.2 "missing.raw" strerror0
      (by decide)).2.1⟩

/-! ## C14: what the shape and depth errors carry -/

/-- C14 fails as stated: bitmaps with 1 and with 4 channels are rejected with
the same `UnsupportedColorSpace` error, whose message names only the expected
3 colors; and `copy_data_to_buffer_u8` on a 16-bit and on a 12-bit image fails
with the same `BitDepthMismatch` error, whose message names only the expected
depth 8.  The observed values cannot be told from the errors. -/
theorem C14_errors_without_observed_value :
    decodeMono.1 = Except.error DecodeError.UnsupportedColorSpace
      ∧ decodeFour.1 = Except.error DecodeError.UnsupportedColorSpace
      ∧ imgMono.colors ≠ imgFour.colors
      ∧ DecodeError.UnsupportedColorSpace.what strerror0 = "Image is not RGB (expected 3 colors)"
      ∧ decode16.1 = Except.ok () ∧ decode12.1 = Except.ok ()
      ∧ (copy_data_to_buffer_u8 decode16.2 [0]).result
          = Except.error (DecodeError.BitDepthMismatch 8)
      ∧ (copy_data_to_buffer_u8 decode12.2 [0]).result
          = Except.error (DecodeError.BitDepthMismatch 8)
      ∧ img16.bits ≠ img12.bits
      ∧ (DecodeError.BitDepthMismatch 8).what strerror0 = "Expected bit depth of 8"
      ∧ (copy_data_to_buffer_u16 decode8.2 ⟨[]⟩).result
          = (copy_data_to_buffer_u16 decode12.2 ⟨[]⟩).result
      ∧ img8.bits ≠ img12.bits :=
  ⟨rfl, rfl, by decide, by decide, rfl, rfl, rfl, rfl, by decide, by decide, rfl, by decide⟩

/-- C14 as amended: the shape and depth errors carry the expected value only.
Every extracted bitmap whose channel count is not 3 makes the decode fail with
the one error `UnsupportedColorSpace`, with the message "Image is not RGB
(expected 3 colors)"; every current image whose bit depth is not 8 makes
`copy_data_to_buffer_u8` fail with `BitDepthMismatch` carrying the expected
depth 8, and every current image whose bit depth is not 16 makes
`copy_data_to_buffer_u16` fail with `BitDepthMismatch` carrying the expected
depth 16. -/
theorem C14_errors_carry_expected {σ : Type} (eng : Engine σ) (self : RawProcessor σ)
    (path : String) (libraw_strerror : Int → String) :
    (∀ img, (open_answer eng self path).1 = LIBRAW_SUCCESS →
        (unpack_answer eng self path).1 = LIBRAW_SUCCESS →
        (process_answer eng self path).1 = LIBRAW_SUCCESS →
        (extract_answer eng self path).1 = some img →
        img.type = LIBRAW_IMAGE_BITMAP → img.colors ≠ 3 →
        (open_and_process eng self path).1 = Except.error DecodeError.UnsupportedColorSpace)
      ∧ DecodeError.UnsupportedColorSpace.what libraw_strerror
          = "Image is not RGB (expected 3 colors)"
      ∧ (∀ img buffer, self.image = some img → img.bits ≠ 8 →
          (copy_data_to_buffer_u8 self buffer).result
            = Except.error (DecodeError.BitDepthMismatch 8))
      ∧ (∀ img buffer, self.image = some img → img.bits ≠ 16 →
          (copy_data_to_buffer_u16 self buffer).result
            = Except.error (DecodeError.BitDepthMismatch 16))
      ∧ (∀ expected, (DecodeError.BitDepthMismatch expected).what libraw_strerror
          = "Expected bit depth of " ++ toString expected) := by
  refine ⟨?_, rfl, ?_, ?_, fun _ => rfl⟩
  · intro img h1 h2 h3 h4 hb hc
    rw [(open_and_process_extracted eng self path h1 h2 h3).1, h4]
    simp [hb, hc]
  · intro img buffer h hb
    simp [copy_data_to_buffer_u8, h, hb]
  · intro img buffer h hb
    simp [copy_data_to_buffer_u16, h, hb]

/-- C14 as amended, at a concrete input: the 8-bit copy on a session that
holds the 12-bit image `img12`. -/
theorem C14_errors_carry_expected_witness :
    (copy_data_to_buffer_u8 decode12.2 [0, 0]).result
      = Except.error (DecodeError.BitDepthMismatch 8) :=
  (C14_errors_carry_expected (scripted 0 0 0 none 0) decode12.2 "a.raw" strerror0).2.2.1
    img12 [0, 0] rfl (by decide)

/-! ## C15: the release of the previous image -/

/-- C15: when the session holds the image `img`, a decode first releases `img`
and clears the pointer, then calls `open_file`: the calls it records are the
release of `img`, the open call, and then stage calls only, so that `img` is
released exactly once, whatever the outcome.  Afterwards the current image is
never the old pointer: there is none when the call fails at an engine stage,
and otherwise it is the pointer the engine just extracted, in particular when
the call succeeds. -/
theorem C15_release_before_open {σ : Type} (eng : Engine σ) (self : RawProcessor σ)
    (path : String) (img : libraw_processed_image_t) (h : self.image = some img) :
    (clear_image self).image = none
      ∧ (clear_image self).log = self.log ++ [EngineCall.dcraw_clear_mem img]
      ∧ (∃ stages, (open_and_process eng self path).2.log
            = self.log ++ EngineCall.dcraw_clear_mem img
                :: EngineCall.open_file path policy :: stages
          ∧ releases stages = 0)
      ∧ releases (decode_calls eng self path) = 1
      ∧ (∀ ret, (open_and_process eng self path).1 = Except.error (DecodeError.OpenFailed ret) →
          (open_and_process eng self path).2.image = none)
      ∧ (∀ ret, (open_and_process eng self path).1
            = Except.error (DecodeError.UnpackFailed ret) →
          (open_and_process eng self path).2.image = none)
      ∧ (∀ ret, (open_and_process eng self path).1
            = Except.error (DecodeError.ProcessFailed ret) →
          (open_and_process eng self path).2.image = none)
      ∧ (∀ ret, (open_and_process eng self path).1
            = Except.error (DecodeError.ExtractFailed ret) →
          (open_and_process eng self path).2.image = none)
      ∧ ((open_and_process eng self path).2.image = none
          ∨ (open_and_process eng self path).2.image = (extract_answer eng self path).1)
      ∧ ((open_and_process eng self path).1 = Except.ok () →
          ∃ new, (extract_answer eng self path).1 = some new
            ∧ (open_and_process eng self path).2.image = some new) := by
  have hc : (clear_image self).log = self.log ++ [EngineCall.dcraw_clear_mem img] := by
    rw [clear_image_log, h]
  have hl := open_and_process_log eng self path
  have hi := open_and_process_image eng self path
  have hr := open_and_process_result eng self path
  rw [hc] at hl
  refine ⟨clear_image_image self, hc, ?_, ?_, ?_, ?_, ?_, ?_, ?_, ?_⟩
  · by_cases h1 : (open_answer eng self path).1 = LIBRAW_SUCCESS <;>
      by_cases h2 : (unpack_answer eng self path).1 = LIBRAW_SUCCESS <;>
      by_cases h3 : (process_answer eng self path).1 = LIBRAW_SUCCESS <;>
      simp [h1, h2, h3] at hl <;> simp [hl, releases]
  · unfold decode_calls
    by_cases h1 : (open_answer eng self path).1 = LIBRAW_SUCCESS <;>
      by_cases h2 : (unpack_answer eng self path).1 = LIBRAW_SUCCESS <;>
      by_cases h3 : (process_answer eng self path).1 = LIBRAW_SUCCESS <;>
      simp [h1, h2, h3] at hl <;> simp [hl, releases]
  · intro ret he
    rw [hr] at he
    rw [hi]
    split_ifs at he ⊢ <;> first | rfl | skip
    all_goals (split at he <;> first | (split_ifs at he <;> simp at he) | simp at he)
  · intro ret he
    rw [hr] at he
    rw [hi]
    split_ifs at he ⊢ <;> first | rfl | skip
    all_goals (split at he <;> first | (split_ifs at he <;> simp at he) | simp at he)
  · intro ret he
    rw [hr] at he
    rw [hi]
    split_ifs at he ⊢ <;> first | rfl | skip
    all_goals (split at he <;> first | (split_ifs at he <;> simp at he) | simp at he)
  · intro ret he
    rw [hr] at he
    rw [hi]
    split_ifs at he ⊢ <;> first | rfl | skip
    all_goals (split at he <;> first | assumption | (split_ifs at he <;> simp at he))
  · rw [hi]
    split_ifs <;> simp
  · intro hok
    obtain ⟨_, _, _, new, h4, _, _, h5⟩ := open_and_process_ok eng self path hok
    exact ⟨new, h4, h5⟩

/-- C15 at a concrete input: the session holds `img8` and a further decode
extracts `img16`; the record of that decode holds exactly one release. -/
theorem C15_release_before_open_witness :
    releases (decode_calls (scripted 0 0 0 (some img16) 0) decode8.2 "b.raw") = 1 :=
  (C15_release_before_open (scripted 0 0 0 (some img16) 0) decode8.2 "b.raw" img8 rfl).2.2.2.1

/-! ## Lemmas on the ledger of image handles -/

theorem ledger_append (a b : List EngineCall) :
    ledger (a ++ b) = b.foldl Ledger.record (ledger a) := by
  simp [ledger, List.foldl_append]

theorem foldl_record_breach (log : List EngineCall) :
    log.foldl Ledger.record Ledger.breach = Ledger.breach := by
  induction log with
  | nil => rfl
  | cons c rest ih => simpa [List.foldl_cons, Ledger.record] using ih

theorem ledger_take_ne_breach (log : List EngineCall) (h : ledger log ≠ Ledger.breach)
    (n : Nat) : ledger (log.take n) ≠ Ledger.breach := by
  intro hb
  apply h
  have hsplit : ledger log = (log.drop n).foldl Ledger.record (ledger (log.take n)) := by
    rw [← ledger_append, List.take_append_drop]
  rw [hsplit, hb, foldl_record_breach]

theorem ledger_clear_image {σ : Type} (self : RawProcessor σ)
    (h : ledger self.log = Ledger.of_image self.image) :
    ledger (clear_image self).log = Ledger.empty := by
  rw [clear_image_log, ledger_append, h]
  cases hi : self.image with
  | none => rfl
  | some img => simp [Ledger.of_image, Ledger.record]

theorem ledger_open_and_process {σ : Type} (eng : Engine σ) (self : RawProcessor σ)
    (path : String) (h : ledger self.log = Ledger.of_image self.image) :
    ledger (open_and_process eng self path).2.log
      = Ledger.of_image (open_and_process eng self path).2.image := by
  rw [open_and_process_log, open_and_process_image, ledger_append, ledger_clear_image self h]
  split_ifs
  · rfl
  · rfl
  · rfl
  · cases (extract_answer eng self path).1 <;> rfl

theorem ledger_step {σ : Type} (eng : Engine σ) (self : RawProcessor σ) (c : Call)
    (h : ledger self.log = Ledger.of_image self.image) :
    ledger (step eng self c).log = Ledger.of_image (step eng self c).image := by
  cases c with
  | open_and_process path => exact ledger_open_and_process eng self path h
  | accessor a => cases a <;> exact h
  | copy_data_to_buffer_u8 buffer =>
    simp only [step]
    rw [copy_data_to_buffer_u8_self]
    exact h
  | copy_data_to_buffer_u16 buffer =>
    simp only [step]
    rw [copy_data_to_buffer_u16_self]
    exact h

theorem ledger_run {σ : Type} (eng : Engine σ) (calls : List Call) (self : RawProcessor σ)
    (h : ledger self.log = Ledger.of_image self.image) :
    ledger (run eng self calls).log = Ledger.of_image (run eng self calls).image := by
  induction calls generalizing self with
  | nil => exact h
  | cons c rest ih => exact ih (step eng self c) (ledger_step eng self c h)

theorem ledger_destroy {σ : Type} (self : RawProcessor σ)
    (h : ledger self.log = Ledger.of_image self.image) :
    ledger (destroy self) = Ledger.empty := by
  unfold destroy
  cases hi : self.image with
  | none => simpa [hi, Ledger.of_image] using h
  | some img =>
    simp only []
    rw [ledger_append, h, hi]
    simp [Ledger.of_image, Ledger.record]

theorem record_balance (st : Ledger) (c : EngineCall) (h : st.record c ≠ Ledger.breach) :
    extractions [c] + st.pending = releases [c] + (st.record c).pending := by
  cases st with
  | breach => simp [Ledger.record] at h
  | empty =>
    cases c with
    | dcraw_make_mem_image r => cases r <;> simp [Ledger.record, Ledger.pending, extractions, releases]
    | dcraw_clear_mem img => simp [Ledger.record] at h
    | open_file p q => simp [Ledger.record, Ledger.pending, extractions, releases]
    | unpack => simp [Ledger.record, Ledger.pending, extractions, releases]
    | dcraw_process => simp [Ledger.record, Ledger.pending, extractions, releases]
  | held img =>
    cases c with
    | dcraw_make_mem_image r =>
      cases r with
      | none => simp [Ledger.record, Ledger.pending, extractions, releases]
      | some i => simp [Ledger.record] at h
    | dcraw_clear_mem released =>
      by_cases he : released = img
      · simp [Ledger.record, Ledger.pending, extractions, releases, he]
      · simp [Ledger.record, he] at h
    | open_file p q => simp [Ledger.record, Ledger.pending, extractions, releases]
    | unpack => simp [Ledger.record, Ledger.pending, extractions, releases]
    | dcraw_process => simp [Ledger.record, Ledger.pending, extractions, releases]

theorem foldl_record_balance (log : List EngineCall) (st : Ledger)
    (h : log.foldl Ledger.record st ≠ Ledger.breach) :
    extractions log + st.pending = releases log + (log.foldl Ledger.record st).pending := by
  induction log generalizing st with
  | nil => simp [extractions, releases]
  | cons c rest ih =>
    have hc : st.record c ≠ Ledger.breach := by
      intro hb
      apply h
      simp [List.foldl_cons, hb, foldl_record_breach]
    have h1 := record_balance st c hc
    have h2 := ih (st.record c) (by simpa [List.foldl_cons] using h)
    have e1 : extractions (c :: rest) = extractions [c] + extractions rest := by
      simp only [extractions, ← List.length_append, ← List.filter_append]
      rfl
    have e2 : releases (c :: rest) = releases [c] + releases rest := by
      simp only [releases, ← List.length_append, ← List.filter_append]
      rfl
    simp only [List.foldl_cons]
    omega

theorem run_without_decode {σ : Type} (eng : Engine σ) (calls : List Call)
    (self : RawProcessor σ) (h : ∀ path, Call.open_and_process path ∉ calls) :
    run eng self calls = self := by
  induction calls generalizing self with
  | nil => rfl
  | cons c rest ih =>
    have hrest : ∀ path, Call.open_and_process path ∉ rest := fun path hm =>
      h path (List.mem_cons_of_mem c hm)
    have hstep : step eng self c = self := by
      cases c with
      | open_and_process path => exact absurd (List.mem_cons_self _ _) (h path)
      | accessor a => cases a <;> rfl
      | copy_data_to_buffer_u8 buffer => exact copy_data_to_buffer_u8_self self buffer
      | copy_data_to_buffer_u16 buffer => exact copy_data_to_buffer_u16_self self buffer
    show run eng (step eng self c) rest = self
    rw [hstep]
    exact ih self hrest

/-! ## C16: the lifetime of image handles -/

/-- C16: for every engine and every sequence of decode, accessor and copy-out
calls on a fresh session, the only unreleased image handle is at every point
the session's current image, so there is at most one; after destruction no
handle is unreleased, at no point of the whole record was a second handle
unreleased or a handle released that was not held, and the record holds as
many releases as extractions of a non-null image.  The destruction of a
session on which no decode was called records no engine call at all. -/
theorem C16_image_lifetime {σ : Type} (eng : Engine σ) (init : LibRaw σ) (calls : List Call) :
    ledger (run eng (new_raw_processor init) calls).log
        = Ledger.of_image (run eng (new_raw_processor init) calls).image
      ∧ ledger (destroy (run eng (new_raw_processor init) calls)) = Ledger.empty
      ∧ (∀ n, ledger ((destroy (run eng (new_raw_processor init) calls)).take n)
          ≠ Ledger.breach)
      ∧ extractions (destroy (run eng (new_raw_processor init) calls))
          = releases (destroy (run eng (new_raw_processor init) calls))
      ∧ ((∀ path, Call.open_and_process path ∉ calls) →
          destroy (run eng (new_raw_processor init) calls) = [])
      ∧ destroy (new_raw_processor init) = [] := by
  have h0 : ledger (new_raw_processor init).log
      = Ledger.of_image (new_raw_processor init).image := rfl
  have hrun := ledger_run eng calls (new_raw_processor init) h0
  have hd := ledger_destroy (run eng (new_raw_processor init) calls) hrun
  have hne : ledger (destroy (run eng (new_raw_processor init) calls)) ≠ Ledger.breach := by
    rw [hd]
    decide
  refine ⟨hrun, hd, ledger_take_ne_breach _ hne, ?_, ?_, rfl⟩
  · have hb := foldl_record_balance (destroy (run eng (new_raw_processor init) calls))
      Ledger.empty hne
    have hd2 : (destroy (run eng (new_raw_processor init) calls)).foldl Ledger.record
        Ledger.empty = Ledger.empty := hd
    rw [hd2] at hb
    simpa [Ledger.pending] using hb
  · intro h
    rw [run_without_decode eng calls _ h]
    rfl

/-- C16 at a concrete input: a decode that fails the channel-count check, an
accessor call, a successful decode, a copy-out and the destruction: two images
were extracted and two released. -/
theorem C16_image_lifetime_witness :
    releases (destroy (run (scripted 0 0 0 (some imgMono) 0) (new_raw_processor init0)
        [Call.open_and_process "a.raw", Call.accessor Accessor.get_width,
         Call.open_and_process "b.raw", Call.copy_data_to_buffer_u8 [0, 0]])) = 2
      ∧ extractions (destroy (run (scripted 0 0 0 (some imgMono) 0) (new_raw_processor init0)
        [Call.open_and_process "a.raw", Call.accessor Accessor.get_width,
         Call.open_and_process "b.raw", Call.copy_data_to_buffer_u8 [0, 0]]))
        = releases (destroy (run (scripted 0 0 0 (some imgMono) 0) (new_raw_processor init0)
        [Call.open_and_process "a.raw", Call.accessor Accessor.get_width,
         Call.open_and_process "b.raw", Call.copy_data_to_buffer_u8 [0, 0]])) :=
  ⟨by decide,
   (C16_image_lifetime (scripted 0 0 0 (some imgMono) 0) init0
      [Call.open_and_process "a.raw", Call.accessor Accessor.get_width,
       Call.open_and_process "b.raw", Call.copy_data_to_buffer_u8 [0, 0]]).2.2.2.1⟩

/-! ## C17: the order of the engine calls -/

/-- C17: after the release of a previous image, one decode records the stage
calls `open_file`, `unpack`, `dcraw_process`, `dcraw_make_mem_image` in this
order, each at most once, and stops after the first stage that does not return
success: only the open call when open fails; open and unpack when unpack
fails; open, unpack and process when process fails; all four otherwise. -/
theorem C17_stage_order {σ : Type} (eng : Engine σ) (self : RawProcessor σ) (path : String) :
    ∃ stages, (open_and_process eng self path).2.log = (clear_image self).log ++ stages
      ∧ ((open_answer eng self path).1 ≠ LIBRAW_SUCCESS →
          stages = [EngineCall.open_file path policy])
      ∧ ((open_answer eng self path).1 = LIBRAW_SUCCESS →
          (unpack_answer eng self path).1 ≠ LIBRAW_SUCCESS →
          stages = [EngineCall.open_file path policy, EngineCall.unpack])
      ∧ ((open_answer eng self path).1 = LIBRAW_SUCCESS →
          (unpack_answer eng self path).1 = LIBRAW_SUCCESS →
          (process_answer eng self path).1 ≠ LIBRAW_SUCCESS →
          stages = [EngineCall.open_file path policy, EngineCall.unpack,
            EngineCall.dcraw_process])
      ∧ ((open_answer eng self path).1 = LIBRAW_SUCCESS →
          (unpack_answer eng self path).1 = LIBRAW_SUCCESS →
          (process_answer eng self path).1 = LIBRAW_SUCCESS →
          stages = [EngineCall.open_file path policy, EngineCall.unpack,
            EngineCall.dcraw_process,
            EngineCall.dcraw_make_mem_image (extract_answer eng self path).1]) := by
  refine ⟨_, open_and_process_log eng self path, ?_, ?_, ?_, ?_⟩
  · intro h1
    simp [h1]
  · intro h1 h2
    simp [h1, h2]
  · intro h1 h2 h3
    simp [h1, h2, h3]
  · intro h1 h2 h3
    simp [h1, h2, h3]

/-- C17 at a concrete input: on a session that holds an image, the engine
answers open with success and unpack with status 3; the record of the decode
is the release, the open call and the unpack call, and nothing more. -/
theorem C17_stage_order_witness :
    decode_calls (scripted 0 3 0 (some img16) 0) decode8.2 "b.raw"
        = [EngineCall.dcraw_clear_mem img8, EngineCall.open_file "b.raw" policy,
           EngineCall.unpack]
      ∧ ∃ stages, (open_and_process (scripted 0 3 0 (some img16) 0) decode8.2 "b.raw").2.log
          = (clear_image decode8.2).log ++ stages
        ∧ stages = [EngineCall.open_file "b.raw" policy, EngineCall.unpack] :=
  ⟨by decide,
   (C17_stage_order (scripted 0 3 0 (some img16) 0) decode8.2 "b.raw").elim
     (fun stages h => ⟨stages, h.1, h.2.2.1 rfl (by decide)⟩)⟩

/-! ## C18: the processing parameters -/

/-- C18: whatever the session state and the path, the parameters of the engine
object on which `open_file` is called are the constants: output depth 16,
gamma pair (1, 1), camera white balance 1, camera matrix 1, no auto bright 1,
adjust-maximum threshold 0; they are the same for any other session and path,
and the open call is recorded with them right after the release of a previous
image.  The code writes no parameter afterwards: with an engine whose stage
calls leave the parameters alone, they are still in force at the unpack, the
process and the extract call and when the decode returns. -/
theorem C18_fixed_policy {σ : Type} (eng : Engine σ) (self : RawProcessor σ) (path : String) :
    (at_open self).params
        = { output_bps := 16, gamm0 := 1, gamm1 := 1, use_camera_wb := 1,
            use_camera_matrix := 1, no_auto_bright := 1, adjust_maximum_thr := 0 }
      ∧ (∀ (self2 : RawProcessor σ), (at_open self2).params = (at_open self).params)
      ∧ (∃ rest, (open_and_process eng self path).2.log
          = (clear_image self).log ++ EngineCall.open_file path (at_open self).params :: rest)
      ∧ ((∀ l p, (eng.open_file l p).2.params = l.params) →
          (∀ l, (eng.unpack l).2.params = l.params) →
          (∀ l, (eng.dcraw_process l).2.params = l.params) →
          (∀ l, (eng.dcraw_make_mem_image l).2.params = l.params) →
          (open_answer eng self path).2.params = policy
            ∧ (unpack_answer eng self path).2.params = policy
            ∧ (process_answer eng self path).2.params = policy
            ∧ (open_and_process eng self path).2.processor.params = policy) := by
  refine ⟨rfl, fun _ => rfl, ?_, ?_⟩
  · have hl := open_and_process_log eng self path
    have hp : (at_open self).params = policy := rfl
    rw [hl, hp]
    split_ifs
    · exact ⟨_, rfl⟩
    · exact ⟨_, rfl⟩
    · exact ⟨_, rfl⟩
    · exact ⟨_, rfl⟩
  · intro h1 h2 h3 h4
    have e1 : (open_answer eng self path).2.params = policy := by
      unfold open_answer
      rw [h1]
      rfl
    have e2 : (unpack_answer eng self path).2.params = policy := by
      unfold unpack_answer
      rw [h2, e1]
    have e3 : (process_answer eng self path).2.params = policy := by
      unfold process_answer
      rw [h3, e2]
    refine ⟨e1, e2, e3, ?_⟩
    simp only [process_answer, unpack_answer, open_answer, at_open] at e1 e2 e3
    unfold open_and_process
    simp only []
    split_ifs
    · exact e1
    · exact e2
    · exact e3
    · split <;> (try split_ifs) <;> (simp only []; rw [h4]; exact e3)

/-- C18 at a concrete input: a session whose parameters were all different
before, decoded twice with different paths on the test engine. -/
theorem C18_fixed_policy_witness :
    (open_and_process (scripted 0 0 0 (some img8) 0) decode16.2 "b.raw").2.processor.params
        = policy
      ∧ init0.params ≠ policy :=
  ⟨((C18_fixed_policy (scripted 0 0 0 (some img8) 0) decode16.2 "b.raw").2.2.2
      (fun _ _ => rfl) (fun _ => rfl) (fun _ => rfl) (fun _ => rfl)).2.2.2,
   by decide⟩

/-! ## C19: a failed copy-out -/

/-- C19: when `copy_data_to_buffer_u8` or `copy_data_to_buffer_u16` fails, with
whichever error, the caller's buffer and the session are exactly as before the
call; a buffer is written only by a call that succeeds. -/
theorem C19_failed_copy_is_atomic {σ : Type} (self : RawProcessor σ) (buffer8 : List Nat)
    (buffer16 : SliceU16) :
    (∀ e, (copy_data_to_buffer_u8 self buffer8).result = Except.error e →
        (copy_data_to_buffer_u8 self buffer8).buffer = buffer8
          ∧ (copy_data_to_buffer_u8 self buffer8).self = self)
      ∧ (∀ e, (copy_data_to_buffer_u16 self buffer16).result = Except.error e →
          (copy_data_to_buffer_u16 self buffer16).buffer = buffer16
            ∧ (copy_data_to_buffer_u16 self buffer16).self = self)
      ∧ ((copy_data_to_buffer_u8 self buffer8).buffer ≠ buffer8 →
          (copy_data_to_buffer_u8 self buffer8).result = Except.ok ())
      ∧ ((copy_data_to_buffer_u16 self buffer16).buffer ≠ buffer16 →
          (copy_data_to_buffer_u16 self buffer16).result = Except.ok ()) := by
  refine ⟨?_, ?_, ?_, ?_⟩
  · intro e he
    refine ⟨?_, copy_data_to_buffer_u8_self self buffer8⟩
    cases hi : self.image with
    | none => simp [copy_data_to_buffer_u8, hi]
    | some img =>
      by_cases hb : img.bits = 8
      · by_cases hl : buffer8.length = img.data_size
        · simp [copy_data_to_buffer_u8, hi, hb, hl] at he
        · simp [copy_data_to_buffer_u8, hi, hb, hl]
      · simp [copy_data_to_buffer_u8, hi, hb]
  · intro e he
    refine ⟨?_, copy_data_to_buffer_u16_self self buffer16⟩
    cases hi : self.image with
    | none => simp [copy_data_to_buffer_u16, hi]
    | some img =>
      by_cases hb : img.bits = 16
      · by_cases hl : buffer16.size = img.data_size
        · simp [copy_data_to_buffer_u16, hi, hb, hl] at he
        · simp [copy_data_to_buffer_u16, hi, hb, hl]
      · simp [copy_data_to_buffer_u16, hi, hb]
  · intro hne
    cases hi : self.image with
    | none => simp [copy_data_to_buffer_u8, hi] at hne
    | some img =>
      by_cases hb : img.bits = 8
      · by_cases hl : buffer8.length = img.data_size
        · simp [copy_data_to_buffer_u8, hi, hb, hl]
        · simp [copy_data_to_buffer_u8, hi, hb, hl] at hne
      · simp [copy_data_to_buffer_u8, hi, hb] at hne
  · intro hne
    cases hi : self.image with
    | none => simp [copy_data_to_buffer_u16, hi] at hne
    | some img =>
      by_cases hb : img.bits = 16
      · by_cases hl : buffer16.size = img.data_size
        · simp [copy_data_to_buffer_u16, hi, hb, hl]
        · simp [copy_data_to_buffer_u16, hi, hb, hl] at hne
      · simp [copy_data_to_buffer_u16, hi, hb] at hne

/-- C19 at a concrete input: the 8-bit copy on a 16-bit image fails and leaves
the buffer [4, 5] as it was. -/
theorem C19_failed_copy_is_atomic_witness :
    (copy_data_to_buffer_u8 decode16.2 [4, 5]).buffer = [4, 5]
      ∧ (copy_data_to_buffer_u8 decode16.2 [4, 5]).self = decode16.2 :=
  (C19_failed_copy_is_atomic decode16.2 [4, 5] ⟨[]⟩).1 (DecodeError.BitDepthMismatch 8) rfl

/-! ## C20: history independence of a decode -/

theorem at_open_eq {σ : Type} (self : RawProcessor σ) :
    at_open self = { params := policy, state := self.processor.state } := by
  unfold at_open write_params clear_image
  cases self.image <;> rfl

theorem open_and_process_of_responses {σ τ : Type} (eng1 : Engine σ) (eng2 : Engine τ)
    (self1 : RawProcessor σ) (self2 : RawProcessor τ) (path : String)
    (h : responses eng1 self1 path = responses eng2 self2 path) :
    (open_and_process eng1 self1 path).1 = (open_and_process eng2 self2 path).1
      ∧ (open_and_process eng1 self1 path).2.image
          = (open_and_process eng2 self2 path).2.image := by
  rw [open_and_process_result eng1, open_and_process_result eng2,
    open_and_process_image eng1, open_and_process_image eng2]
  unfold responses at h
  by_cases a1 : (open_answer eng1 self1 path).1 = LIBRAW_SUCCESS <;>
    by_cases a2 : (unpack_answer eng1 self1 path).1 = LIBRAW_SUCCESS <;>
    by_cases a3 : (process_answer eng1 self1 path).1 = LIBRAW_SUCCESS <;>
    by_cases b1 : (open_answer eng2 self2 path).1 = LIBRAW_SUCCESS <;>
    by_cases b2 : (unpack_answer eng2 self2 path).1 = LIBRAW_SUCCESS <;>
    by_cases b3 : (process_answer eng2 self2 path).1 = LIBRAW_SUCCESS <;>
    simp [a1, a2, a3, b1, b2, b3] at h ⊢ <;> simp_all

/-- C20: two sessions in arbitrary states that decode the same path and get
the same answers from the engine (the statuses of the stage calls made and the
extracted image) get the same outcome and are left with the same current
image, so that afterwards every accessor and every copy-out call returns the
same result, and writes the same buffer, on both.  The answers do not depend
on what a session held before: two sessions with the same engine state get
the same answers, whatever their current image and their parameters. -/
theorem C20_history_independence {σ τ : Type} (eng1 : Engine σ) (eng2 : Engine τ)
    (self1 : RawProcessor σ) (self2 : RawProcessor τ) (path : String) :
    (responses eng1 self1 path = responses eng2 self2 path →
        (open_and_process eng1 self1 path).1 = (open_and_process eng2 self2 path).1
          ∧ (open_and_process eng1 self1 path).2.image
              = (open_and_process eng2 self2 path).2.image
          ∧ (∀ a : Accessor, (a.call (open_and_process eng1 self1 path).2).1
              = (a.call (open_and_process eng2 self2 path).2).1)
          ∧ (∀ buffer,
              (copy_data_to_buffer_u8 (open_and_process eng1 self1 path).2 buffer).result
                = (copy_data_to_buffer_u8 (open_and_process eng2 self2 path).2 buffer).result
              ∧ (copy_data_to_buffer_u8 (open_and_process eng1 self1 path).2 buffer).buffer
                = (copy_data_to_buffer_u8 (open_and_process eng2 self2 path).2 buffer).buffer)
          ∧ (∀ buffer,
              (copy_data_to_buffer_u16 (open_and_process eng1 self1 path).2 buffer).result
                = (copy_data_to_buffer_u16 (open_and_process eng2 self2 path).2 buffer).result
              ∧ (copy_data_to_buffer_u16 (open_and_process eng1 self1 path).2 buffer).buffer
                = (copy_data_to_buffer_u16 (open_and_process eng2 self2 path).2 buffer).buffer))
      ∧ (∀ self3 : RawProcessor σ, self3.processor.state = self1.processor.state →
          responses eng1 self3 path = responses eng1 self1 path) := by
  constructor
  · intro h
    obtain ⟨hr, hi⟩ := open_and_process_of_responses eng1 eng2 self1 self2 path h
    refine ⟨hr, hi, ?_, ?_, ?_⟩
    · intro a
      cases a <;> simp [Accessor.call, get_width, get_height, get_bits, get_data_size, hi]
    · intro buffer
      simp only [copy_data_to_buffer_u8, hi]
      cases (open_and_process eng2 self2 path).2.image with
      | none => exact ⟨rfl, rfl⟩
      | some img => constructor <;> (simp only []; split_ifs <;> rfl)
    · intro buffer
      simp only [copy_data_to_buffer_u16, hi]
      cases (open_and_process eng2 self2 path).2.image with
      | none => exact ⟨rfl, rfl⟩
      | some img => constructor <;> (simp only []; split_ifs <;> rfl)
  · intro self3 hs
    have e : at_open self3 = at_open self1 := by
      rw [at_open_eq, at_open_eq, hs]
    simp only [responses, extract_answer, process_answer, unpack_answer, open_answer, e]

/-- C20 at a concrete input: a fresh session and a session that holds the
8-bit image `img8` decode the same path on the test engine, which extracts
`img16`; both return success and hold `img16` afterwards. -/
theorem C20_history_independence_witness :
    (open_and_process (scripted 0 0 0 (some img16) 0) fresh0 "b.raw").2.image
        = (open_and_process (scripted 0 0 0 (some img16) 0) decode8.2 "b.raw").2.image
      ∧ fresh0.image ≠ decode8.2.image :=
  ⟨((C20_history_independence (scripted 0 0 0 (some img16) 0) (scripted 0 0 0 (some img16) 0)
      fresh0 decode8.2 "b.raw").1 rfl).2.1,
   by decide⟩

end Yancy
